import Mathlib

/-!
Verification of the SmartConvoy merge-feasibility engine and its auth/hashing
collaborators, as a shallow embedding of `backend/routers/convoy_routes.py`
(`suggest_merge` and its inner helpers), `backend/auth/auth.py` and
`backend/utils/hashing.py`.

Modelling conventions:
- Python floats are modelled as exact rationals (`ℚ`); the float literal `0.3`
  is modelled as `3/10`.
- Python `round(x, 2)` and the `:.2f` / `:.1f` format specifiers round half to
  even, which is mirrored by `rhe` below.
- A JSON response body is modelled as an ordered association list of keys and
  JSON values, mirroring the insertion order of the Python dict literals.
- The external HTTP world (OSRM routing service) enters the model as a
  function from requested waypoint lists to an outcome; `haversine_km`, which
  is imported from `backend.utils.helpers` (a module outside the embedded
  sources), enters as an environment function that may also raise, which
  models a Python exception escaping the helper (for example on malformed
  coordinates).  The `try ... except` at the top of `suggest_merge` is the
  `Except` boundary handler in `suggest_merge`.
-/

/-- A JSON value as serialised by the endpoint: booleans, numbers, strings
and null are the only shapes the merge engine emits. -/
inductive JValue where
  | bool (b : Bool)
  | num (q : ℚ)
  | str (s : String)
  | null
deriving DecidableEq, Repr

/-- A JSON object, as an ordered key/value list (Python dicts preserve
insertion order, and the endpoint serialises them in that order). -/
abbrev JObj := List (String × JValue)

/-- The fields of a vehicle read by the merge engine (the remaining fields,
such as registration number and driver, never flow into `suggest_merge`). -/
structure Vehicle where
  capacity_kg : ℚ
  load_weight_kg : ℚ
deriving DecidableEq, Repr

/-- The fields of a convoy snapshot read by the merge engine. -/
structure Convoy where
  source_lat : ℚ
  source_lon : ℚ
  destination_lat : ℚ
  destination_lon : ℚ
  total_load_kg : ℚ
  vehicles : List Vehicle
deriving DecidableEq, Repr

/-- One entry of the OSRM response's `routes` array; `duration` and
`distance` are read with `.get`, so either may be absent. -/
structure OsrmRoute where
  duration : Option ℚ
  distance : Option ℚ
deriving DecidableEq, Repr

/-- The decoded OSRM response body; `routes = none` models a body without a
`routes` key. -/
structure OsrmJson where
  routes : Option (List OsrmRoute)
deriving DecidableEq, Repr

/-- Outcome of one HTTP round trip to the routing service.  `failure` covers
every path the bare `except` in `osrm_duration` catches: network errors,
timeouts, a non-success status raised by `raise_for_status`, and undecodable
JSON. -/
inductive OsrmOutcome where
  | failure
  | success (j : OsrmJson)
deriving DecidableEq, Repr

/-- The external world `suggest_merge` runs against: the `haversine_km`
helper (imported from outside the embedded sources; `Except.error` models a
Python exception escaping it) and the routing service keyed by the requested
waypoint list. -/
structure Env where
  haversine_km : ℚ → ℚ → ℚ → ℚ → Except String ℚ
  osrm : List (ℚ × ℚ) → OsrmOutcome

/-- Round a rational to an integer, half to even — the rounding used by
Python's `round` and `format`. -/
def rhe (q : ℚ) : ℤ :=
  if q - Int.floor q < 1/2 then Int.floor q
  else if q - Int.floor q > 1/2 then Int.floor q + 1
  else if 2 ∣ Int.floor q then Int.floor q else Int.floor q + 1

/-- Python `round(x, 2)`. -/
def round2 (q : ℚ) : ℚ := (rhe (q * 100) : ℚ) / 100

/-- Fixed-point decimal rendering with `n` fractional digits, mirroring the
Python format specifier `:.nf`. -/
def fmtFixed (n : Nat) (q : ℚ) : String :=
  let k : Nat := (rhe (|q| * (10 : ℚ) ^ n)).toNat
  let ip : Nat := k / 10 ^ n
  let fp : Nat := k % 10 ^ n
  let fpStr : String := toString fp
  let frac : String := String.mk (List.replicate (n - fpStr.length) '0') ++ fpStr
  (if q < 0 then "-" else "") ++ toString ip ++ (if n == 0 then "" else "." ++ frac)

/-- Number of decimal digits needed to write `q` exactly, up to the fuel
bound (every value reaching this formatter in the model is decimal-exact). -/
def decLenAux : Nat → ℚ → Nat
  | 0, _ => 0
  | fuel + 1, q => if q.den = 1 then 0 else decLenAux fuel (q * 10) + 1

/-- Python `f"{x}"` on a float whose value is decimal-exact: at least one
fractional digit, no trailing zeros beyond that (`5.0` renders as `"5.0"`). -/
def pyFloatStr (q : ℚ) : String := fmtFixed (max 1 (decLenAux 64 q)) q

/-- A nullable float as serialised into JSON. -/
def optNum : Option ℚ → JValue
  | some q => JValue.num q
  | none => JValue.null

/-- Inner helper `total_capacity` of `suggest_merge`. -/
def total_capacity (convoy : Convoy) : ℚ :=
  (convoy.vehicles.map (fun v => v.capacity_kg)).sum

/-- Inner helper `spare_capacity` of `suggest_merge`. -/
def spare_capacity (convoy : Convoy) : ℚ :=
  total_capacity convoy - convoy.total_load_kg

/-- Inner helper `osrm_duration` of `suggest_merge`: one best-effort query
against the routing service for an ordered waypoint list, returning the first
route's duration and distance, or `(none, none)` on any failure.  It never
raises: the bare `except` returns `None, None`, and so does the fall-through
when the body has no non-empty `routes` array. -/
def osrm_duration (osrm : List (ℚ × ℚ) → OsrmOutcome) (points : List (ℚ × ℚ)) :
    Option ℚ × Option ℚ :=
  match osrm points with
  | OsrmOutcome.failure => (none, none)
  | OsrmOutcome.success j =>
    match j.routes with
    | some (r :: _) => (r.duration, r.distance)
    | _ => (none, none)

/-- The direct route of a host convoy: source, then destination. -/
def directRoute (host : Convoy) : List (ℚ × ℚ) :=
  [(host.source_lat, host.source_lon), (host.destination_lat, host.destination_lon)]

/-- The pickup route of a host absorbing a guest: host source, guest source,
host destination. -/
def pickupRoute (host guest : Convoy) : List (ℚ × ℚ) :=
  [(host.source_lat, host.source_lon), (guest.source_lat, guest.source_lon),
   (host.destination_lat, host.destination_lon)]

/-- `extra_A` (and, with roles swapped, `extra_B`): the extra minutes the
host pays to pick the guest up, or `none` when either query failed. -/
def extraForHost (osrm : List (ℚ × ℚ) → OsrmOutcome) (host guest : Convoy) : Option ℚ :=
  match (osrm_duration osrm (directRoute host)).1,
        (osrm_duration osrm (pickupRoute host guest)).1 with
  | some direct, some pickup => some ((pickup - direct) / 60)
  | _, _ => none

/-- The `candidates` list: capacity-feasible, successfully costed directions,
in the fixed order A_picks_B then B_picks_A. -/
def mergeCandidates (osrm : List (ℚ × ℚ) → OsrmOutcome) (convoy_a convoy_b : Convoy) :
    List (String × ℚ) :=
  (if spare_capacity convoy_a ≥ convoy_b.total_load_kg then
    match extraForHost osrm convoy_a convoy_b with
    | some e => [("A_picks_B", e)]
    | none => []
  else []) ++
  (if spare_capacity convoy_b ≥ convoy_a.total_load_kg then
    match extraForHost osrm convoy_b convoy_a with
    | some e => [("B_picks_A", e)]
    | none => []
  else [])

/-- Python `min(candidates, key=lambda x: x[1])`: the first element attaining
the minimal key (a later element replaces the current best only when strictly
smaller). -/
def minByFirst : (String × ℚ) → List (String × ℚ) → (String × ℚ)
  | best, [] => best
  | best, c :: rest => minByFirst (if c.2 < best.2 then c else best) rest

/-- The capacity-gate response body. -/
def capacityVerdict (avail_a avail_b load_a load_b : ℚ) : JObj :=
  [("can_merge", JValue.bool false),
   ("reason", JValue.str "No convoy has enough spare capacity to absorb the other"),
   ("convoy_a_spare_kg", JValue.num (round2 avail_a)),
   ("convoy_b_spare_kg", JValue.num (round2 avail_b)),
   ("convoy_a_load_kg", JValue.num (round2 load_a)),
   ("convoy_b_load_kg", JValue.num (round2 load_b))]

/-- The destination-distance-gate response body. -/
def distanceVerdict (dest_dist_km same_dest_radius_km : ℚ) : JObj :=
  [("can_merge", JValue.bool false),
   ("reason", JValue.str ("Destinations too far apart (" ++ fmtFixed 2 dest_dist_km ++
     " km) > threshold " ++ pyFloatStr same_dest_radius_km ++ " km")),
   ("dest_distance_km", JValue.num (round2 dest_dist_km))]

/-- The response body when no direction could be costed (or none had
capacity): it exposes the raw, unrounded `extra_A` and `extra_B`. -/
def noDetourVerdict (extra_A extra_B : Option ℚ) : JObj :=
  [("can_merge", JValue.bool false),
   ("reason", JValue.str "Could not calculate detour durations or no capacity"),
   ("extra_A", optNum extra_A),
   ("extra_B", optNum extra_B)]

/-- The feasible response body. -/
def feasibleVerdict (scenario : String) (extra_min dest_dist_km avail_a avail_b : ℚ) : JObj :=
  [("can_merge", JValue.bool true),
   ("reason", JValue.str (scenario ++ " feasible with extra time " ++
     fmtFixed 1 extra_min ++ " min")),
   ("scenario", JValue.str scenario),
   ("extra_minutes", JValue.num (round2 extra_min)),
   ("dest_distance_km", JValue.num (round2 dest_dist_km)),
   ("fuel_savings_liters", JValue.num (round2 (dest_dist_km * (3/10)))),
   ("convoy_a_spare_kg", JValue.num (round2 avail_a)),
   ("convoy_b_spare_kg", JValue.num (round2 avail_b))]

/-- The over-threshold response body. -/
def thresholdVerdict (scenario : String) (extra_min max_extra_minutes : ℚ) : JObj :=
  [("can_merge", JValue.bool false),
   ("reason", JValue.str ("Best scenario " ++ scenario ++ " costs extra " ++
     fmtFixed 1 extra_min ++ " min > allowed " ++ pyFloatStr max_extra_minutes ++ " min")),
   ("extra_minutes", JValue.num (round2 extra_min))]

/-- The boundary handler's response body for an internal fault. -/
def errorVerdict (msg : String) : JObj :=
  [("can_merge", JValue.bool false),
   ("reason", JValue.str ("Error: " ++ msg))]

/-- The body of `suggest_merge` inside its `try`: capacity gate, destination
proximity gate, detour costing, candidate selection, threshold decision.
Only the external `haversine_km` helper can fault in the model; everything
after it is pure. -/
def suggest_merge_body (env : Env) (convoy_a convoy_b : Convoy)
    (max_extra_minutes same_dest_radius_km : ℚ) : Except String JObj :=
  if ¬ (spare_capacity convoy_a ≥ convoy_b.total_load_kg ∨
        spare_capacity convoy_b ≥ convoy_a.total_load_kg) then
    Except.ok (capacityVerdict (spare_capacity convoy_a) (spare_capacity convoy_b)
      convoy_a.total_load_kg convoy_b.total_load_kg)
  else
    match env.haversine_km convoy_a.destination_lat convoy_a.destination_lon
        convoy_b.destination_lat convoy_b.destination_lon with
    | Except.error e => Except.error e
    | Except.ok dest_dist_km =>
      if dest_dist_km > same_dest_radius_km then
        Except.ok (distanceVerdict dest_dist_km same_dest_radius_km)
      else
        match mergeCandidates env.osrm convoy_a convoy_b with
        | [] => Except.ok (noDetourVerdict (extraForHost env.osrm convoy_a convoy_b)
            (extraForHost env.osrm convoy_b convoy_a))
        | c :: rest =>
          if (minByFirst c rest).2 ≤ max_extra_minutes then
            Except.ok (feasibleVerdict (minByFirst c rest).1 (minByFirst c rest).2
              dest_dist_km (spare_capacity convoy_a) (spare_capacity convoy_b))
          else
            Except.ok (thresholdVerdict (minByFirst c rest).1 (minByFirst c rest).2
              max_extra_minutes)

/-- The `/suggest_merge` endpoint: the body wrapped in the boundary
`try ... except` that turns any internal fault into a structured
`can_merge = false` verdict carrying the fault's message. -/
def suggest_merge (env : Env) (convoy_a convoy_b : Convoy)
    (max_extra_minutes same_dest_radius_km : ℚ) : JObj :=
  match suggest_merge_body env convoy_a convoy_b max_extra_minutes same_dest_radius_km with
  | Except.ok v => v
  | Except.error e => errorVerdict e

/-!
Embedding of `backend/auth/auth.py` (the two send-OTP handlers) and
`backend/utils/hashing.py`.
-/

/-- One record of the in-memory OTP store: the code stored under an email
together with its expiry timestamp. -/
structure OtpEntry where
  otp : String
  expires_at : ℚ
deriving DecidableEq, Repr

/-- The module-level `otp_store` mapping emails to pending OTP records. -/
abbrev OtpStore := List (String × OtpEntry)

/-- Outcome of a send-OTP handler: the success JSON, an `HTTPException`, or
an uncaught Python `NameError` naming the unbound identifier. -/
inductive AuthOutcome where
  | otpSent (message : String) (otp : String)
  | httpError (status : Nat) (detail : String)
  | nameError (missing : String)
deriving DecidableEq, Repr

/-- Python truthiness of a `data.get(...)` result: absent keys give `None`
(falsy) and the empty string is falsy. -/
def truthy : Option String → Bool
  | none => false
  | some s => !(s == "")

/-- The `/register/send-otp` handler.  After the presence check it calls
`validate_email(email)`, but `auth.py` defines only `is_valid_email` and
imports no `validate_email`, so the call raises `NameError`; every later
line of the handler — phone validation, OTP generation, the `otp_store`
write and the success response — is unreachable, so the store is returned
unchanged. -/
def register_send_otp (store : OtpStore) (email phone_number : Option String) :
    AuthOutcome × OtpStore :=
  if ¬ (truthy email ∧ truthy phone_number) then
    (AuthOutcome.httpError 400 "Email & phone required", store)
  else
    (AuthOutcome.nameError "validate_email", store)

/-- The `/login/send-otp` handler: same unbound `validate_email` call right
after the presence check, so with a truthy email it raises `NameError`
before the user lookup, the `otp_store` write and the success response. -/
def login_send_otp (store : OtpStore) (email : Option String) :
    AuthOutcome × OtpStore :=
  if ¬ truthy email then
    (AuthOutcome.httpError 400 "Email required", store)
  else
    (AuthOutcome.nameError "validate_email", store)

/-- The bcrypt `CryptContext` of `hashing.py`, abstracted: an opaque hash
and verify pair satisfying the round-trip law every password-hashing context
provides. -/
structure CryptCtx where
  hash : String → String
  verify : String → String → Bool
  verify_hash : ∀ p, verify p (hash p) = true

/-- `hash_password`: truncates to the first 70 characters, then hashes. -/
def hash_password (ctx : CryptCtx) (password : String) : String :=
  ctx.hash (password.take 70)

/-- `verify_password`: truncates the plaintext to 70 characters, then
verifies against the stored hash. -/
def verify_password (ctx : CryptCtx) (plain hashed : String) : Bool :=
  ctx.verify (plain.take 70) hashed

/-!
Concrete sample data used by witnesses and counterexamples.
-/

/-- An empty vehicle with the given capacity. -/
def vcap (c : ℚ) : Vehicle := { capacity_kg := c, load_weight_kg := 0 }

/-- Spare capacity 100 kg (one 100 kg vehicle, no load). -/
def convoySmallSpare : Convoy :=
  { source_lat := 10, source_lon := 20, destination_lat := 30, destination_lon := 40,
    total_load_kg := 0, vehicles := [vcap 100] }

/-- Load 5000 kg with no capacity at all (spare −5000 kg). -/
def convoyHeavy : Convoy :=
  { source_lat := 11, source_lon := 21, destination_lat := 30, destination_lon := 40,
    total_load_kg := 5000, vehicles := [] }

/-- Spare 2000 kg (capacity 3000, load 1000): can absorb `convoyGuest`. -/
def convoyHost : Convoy :=
  { source_lat := 0, source_lon := 0, destination_lat := 50, destination_lon := 50,
    total_load_kg := 1000, vehicles := [vcap 3000] }

/-- Load 1500 kg, spare 0: cannot absorb `convoyHost`. -/
def convoyGuest : Convoy :=
  { source_lat := 1, source_lon := 1, destination_lat := 50, destination_lon := 51,
    total_load_kg := 1500, vehicles := [vcap 1500] }

/-- Spare 2000 kg against a 1000 kg load: `convoyTwinA` and `convoyTwinB`
can each absorb the other. -/
def convoyTwinA : Convoy :=
  { source_lat := 0, source_lon := 0, destination_lat := 50, destination_lon := 50,
    total_load_kg := 1000, vehicles := [vcap 3000] }

/-- The twin of `convoyTwinA` starting elsewhere. -/
def convoyTwinB : Convoy :=
  { source_lat := 2, source_lon := 2, destination_lat := 50, destination_lon := 51,
    total_load_kg := 1000, vehicles := [vcap 3000] }

/-- An environment whose distance helper returns 0 and whose routing service
is unreachable. -/
def envFail : Env :=
  { haversine_km := fun _ _ _ _ => Except.ok 0, osrm := fun _ => OsrmOutcome.failure }

/-- A distance helper fixing the destination distance at 40 km. -/
def envFar : Env :=
  { haversine_km := fun _ _ _ _ => Except.ok 40, osrm := fun _ => OsrmOutcome.failure }

/-- A distance helper that raises, modelling a fault inside the external
helper. -/
def envRaise : Env :=
  { haversine_km := fun _ _ _ _ => Except.error "boom", osrm := fun _ => OsrmOutcome.failure }

/-- A routing service answering every query with a single route of the given
duration. -/
def osrmConst (d : ℚ) : List (ℚ × ℚ) → OsrmOutcome :=
  fun _ => OsrmOutcome.success { routes := some [{ duration := some d, distance := some 1 }] }

/-- Destinations 2 km apart and a routing service whose every route takes
the same time, so both detours cost 0 extra minutes. -/
def envNear : Env :=
  { haversine_km := fun _ _ _ _ => Except.ok 2, osrm := osrmConst 3600 }

/-- First leakage environment: the guest direction's queries succeed with
equal durations, the host direction's queries fail. -/
def envLeak1 : Env :=
  { haversine_km := fun _ _ _ _ => Except.ok 2,
    osrm := fun pts =>
      if pts = directRoute convoyGuest ∨ pts = pickupRoute convoyGuest convoyHost then
        OsrmOutcome.success { routes := some [{ duration := some 600, distance := some 1 }] }
      else OsrmOutcome.failure }

/-- Second leakage environment: every query fails.  It agrees with
`envLeak1` on the distance helper and on both routes of the A_picks_B
direction, differing only on the capacity-infeasible B_picks_A routes. -/
def envLeak2 : Env :=
  { haversine_km := fun _ _ _ _ => Except.ok 2, osrm := fun _ => OsrmOutcome.failure }

/-- A copy of `envNear` whose answers for the capacity-infeasible
B_picks_A direction's routes are replaced by failures; it agrees with
`envNear` on the distance helper and on both A_picks_B routes. -/
def envNearGuestFail : Env :=
  { haversine_km := fun _ _ _ _ => Except.ok 2,
    osrm := fun pts =>
      if pts = directRoute convoyGuest ∨ pts = pickupRoute convoyGuest convoyHost then
        OsrmOutcome.failure
      else osrmConst 3600 pts }

/-- A trivial hashing context: identity hash, equality check. -/
def idCtx : CryptCtx :=
  { hash := id, verify := fun p h => p == h, verify_hash := by intro p; simp }

/-- Seventy `a` characters followed by an `x`. -/
def pwX : String := String.mk (List.replicate 70 'a') ++ "x"

/-- Seventy `a` characters followed by a `y`: agrees with `pwX` on the first
70 characters but differs afterwards. -/
def pwY : String := String.mk (List.replicate 70 'a') ++ "y"

/-!
Shared evaluation lemmas on the sample data.
-/

lemma envFail_small_heavy_eval :
    suggest_merge envFail convoySmallSpare convoyHeavy 30 5 =
      capacityVerdict 100 (-5000) 0 5000 := by
  norm_num [suggest_merge, suggest_merge_body, spare_capacity, total_capacity,
    convoySmallSpare, convoyHeavy, vcap, envFail]

/-!
C9 — the two send-OTP handlers can only reject or raise `NameError`.
-/

/-- C9: any register/send-otp request carrying a truthy email and phone, and
any login/send-otp request carrying a truthy email, hits the unbound
`validate_email` and raises `NameError`; moreover neither handler can ever
return the OTP-sent response or write to the OTP store. -/
theorem send_otp_name_error :
    (∀ (store : OtpStore) (email phone : Option String),
       truthy email = true → truthy phone = true →
       register_send_otp store email phone = (AuthOutcome.nameError "validate_email", store)) ∧
    (∀ (store : OtpStore) (email : Option String),
       truthy email = true →
       login_send_otp store email = (AuthOutcome.nameError "validate_email", store)) ∧
    (∀ (store : OtpStore) (email phone : Option String) (msg otp : String),
       (register_send_otp store email phone).1 ≠ AuthOutcome.otpSent msg otp ∧
       (register_send_otp store email phone).2 = store) ∧
    (∀ (store : OtpStore) (email : Option String) (msg otp : String),
       (login_send_otp store email).1 ≠ AuthOutcome.otpSent msg otp ∧
       (login_send_otp store email).2 = store) := by
  refine ⟨?_, ?_, ?_, ?_⟩
  · intro store email phone he hp
    unfold register_send_otp
    rw [if_neg]
    simp [he, hp]
  · intro store email he
    unfold login_send_otp
    rw [if_neg]
    simp [he]
  · intro store email phone msg otp
    unfold register_send_otp
    split <;> simp
  · intro store email msg otp
    unfold login_send_otp
    split <;> simp

/-- Witness for C9 at a concrete request. -/
theorem send_otp_name_error_witness :
    truthy (some "officer@army.in") = true ∧
    truthy (some "9876543210") = true ∧
    register_send_otp [] (some "officer@army.in") (some "9876543210") =
      (AuthOutcome.nameError "validate_email", []) :=
  ⟨by decide, by decide,
   send_otp_name_error.1 [] (some "officer@army.in") (some "9876543210")
     (by decide) (by decide)⟩

/-!
C10 — password truncation in `hashing.py`.
-/

/-- C10: `hash_password` and `verify_password` truncate to the first 70
characters, so any two passwords agreeing on those characters hash alike and
each verifies against the hash of the other. -/
theorem password_truncation_indistinguishable (ctx : CryptCtx) (p1 p2 : String)
    (h : p1.take 70 = p2.take 70) :
    hash_password ctx p1 = hash_password ctx p2 ∧
    verify_password ctx p1 (hash_password ctx p2) = true ∧
    verify_password ctx p2 (hash_password ctx p1) = true := by
  unfold hash_password verify_password
  rw [h]
  exact ⟨rfl, ctx.verify_hash (p2.take 70), by rw [← h]; exact ctx.verify_hash (p1.take 70)⟩

set_option maxRecDepth 8192 in
/-- Witness for C10: two 71-character passwords differing only in the last
character are accepted interchangeably. -/
theorem password_truncation_witness :
    pwX ≠ pwY ∧ pwX.take 70 = pwY.take 70 ∧
    verify_password idCtx pwX (hash_password idCtx pwY) = true :=
  ⟨by decide, by decide,
   (password_truncation_indistinguishable idCtx pwX pwY (by decide)).2.1⟩

/-!
C1 — the capacity gate.
-/

/-- C1 counterexample: at a concrete capacity-mismatched pair the verdict's
reason is the code's string, not the claimed string
"No convoy has enough spare capacity.". -/
theorem capacity_reason_counterexample :
    spare_capacity convoySmallSpare < convoyHeavy.total_load_kg ∧
    spare_capacity convoyHeavy < convoySmallSpare.total_load_kg ∧
    List.lookup "can_merge" (suggest_merge envFail convoySmallSpare convoyHeavy 30 5) =
      some (JValue.bool false) ∧
    List.lookup "reason" (suggest_merge envFail convoySmallSpare convoyHeavy 30 5) ≠
      some (JValue.str "No convoy has enough spare capacity.") := by
  rw [envFail_small_heavy_eval]
  refine ⟨?_, ?_, by simp [capacityVerdict, List.lookup], by simp [capacityVerdict, List.lookup]⟩
  · norm_num [spare_capacity, total_capacity, convoySmallSpare, convoyHeavy, vcap]
  · norm_num [spare_capacity, total_capacity, convoySmallSpare, convoyHeavy, vcap]

/-- C1 (amended): when neither convoy can absorb the other, `suggest_merge`
returns the capacity verdict — `can_merge = false`, the reason string
"No convoy has enough spare capacity to absorb the other", and both convoys'
spare capacities and loads — for every environment, so no distance value and
no oracle response affects it. -/
theorem capacity_gate_totality (env : Env) (a b : Convoy) (m r : ℚ)
    (ha : spare_capacity a < b.total_load_kg) (hb : spare_capacity b < a.total_load_kg) :
    suggest_merge env a b m r =
      capacityVerdict (spare_capacity a) (spare_capacity b)
        a.total_load_kg b.total_load_kg := by
  have hc : ¬ (spare_capacity a ≥ b.total_load_kg ∨ spare_capacity b ≥ a.total_load_kg) := by
    push_neg
    exact ⟨ha, hb⟩
  unfold suggest_merge suggest_merge_body
  rw [if_pos hc]

/-- Witness for C1 at the concrete capacity-mismatched pair. -/
theorem capacity_gate_totality_witness :
    spare_capacity convoySmallSpare < convoyHeavy.total_load_kg ∧
    spare_capacity convoyHeavy < convoySmallSpare.total_load_kg ∧
    suggest_merge envFail convoySmallSpare convoyHeavy 30 5 =
      capacityVerdict (spare_capacity convoySmallSpare) (spare_capacity convoyHeavy)
        convoySmallSpare.total_load_kg convoyHeavy.total_load_kg :=
  ⟨by norm_num [spare_capacity, total_capacity, convoySmallSpare, convoyHeavy, vcap],
   by norm_num [spare_capacity, total_capacity, convoySmallSpare, convoyHeavy, vcap],
   capacity_gate_totality envFail convoySmallSpare convoyHeavy 30 5
     (by norm_num [spare_capacity, total_capacity, convoySmallSpare, convoyHeavy, vcap])
     (by norm_num [spare_capacity, total_capacity, convoySmallSpare, convoyHeavy, vcap])⟩

/-!
C2 — the destination proximity gate.
-/

/-- C2: once some absorption direction is capacity-feasible, a measured
destination distance above the radius short-circuits to the distance
verdict; the conclusion does not mention the routing service, and the
environment is arbitrary, so every oracle behavior (including an
unreachable oracle) yields this same verdict. -/
theorem distance_gate_precedence (env : Env) (a b : Convoy) (m r d : ℚ)
    (hcap : spare_capacity a ≥ b.total_load_kg ∨ spare_capacity b ≥ a.total_load_kg)
    (hd : env.haversine_km a.destination_lat a.destination_lon
      b.destination_lat b.destination_lon = Except.ok d)
    (hfar : d > r) :
    suggest_merge env a b m r = distanceVerdict d r := by
  unfold suggest_merge suggest_merge_body
  rw [if_neg (not_not_intro hcap), hd]
  dsimp only
  rw [if_pos hfar]

/-- Witness for C2: spare 2000 kg against load 1500 kg, destinations 40 km
apart, oracle unreachable. -/
theorem distance_gate_precedence_witness :
    spare_capacity convoyHost ≥ convoyGuest.total_load_kg ∧
    envFar.haversine_km convoyHost.destination_lat convoyHost.destination_lon
      convoyGuest.destination_lat convoyGuest.destination_lon = Except.ok 40 ∧
    (40 : ℚ) > 5 ∧
    suggest_merge envFar convoyHost convoyGuest 30 5 = distanceVerdict 40 5 :=
  ⟨by norm_num [spare_capacity, total_capacity, convoyHost, convoyGuest, vcap],
   rfl, by norm_num,
   distance_gate_precedence envFar convoyHost convoyGuest 30 5 40
     (Or.inl (by norm_num [spare_capacity, total_capacity, convoyHost, convoyGuest, vcap]))
     rfl (by norm_num)⟩

/-!
Shared reduction lemma for the candidate-selection tail of the engine.
-/

lemma suggest_merge_selected (env : Env) (a b : Convoy) (m r d : ℚ)
    (c : String × ℚ) (rest : List (String × ℚ))
    (hcap : spare_capacity a ≥ b.total_load_kg ∨ spare_capacity b ≥ a.total_load_kg)
    (hd : env.haversine_km a.destination_lat a.destination_lon
      b.destination_lat b.destination_lon = Except.ok d)
    (hnear : ¬ d > r)
    (hcand : mergeCandidates env.osrm a b = c :: rest) :
    suggest_merge env a b m r =
      if (minByFirst c rest).2 ≤ m then
        feasibleVerdict (minByFirst c rest).1 (minByFirst c rest).2 d
          (spare_capacity a) (spare_capacity b)
      else thresholdVerdict (minByFirst c rest).1 (minByFirst c rest).2 m := by
  unfold suggest_merge suggest_merge_body
  rw [if_neg (not_not_intro hcap), hd]
  dsimp only
  rw [if_neg hnear, hcand]
  dsimp only
  by_cases hm : (minByFirst c rest).2 ≤ m
  · rw [if_pos hm, if_pos hm]
  · rw [if_neg hm, if_neg hm]

/-!
C3 — the threshold decision with inclusive boundary.
-/

/-- C3: with both gates passed and a best candidate selected, the verdict is
feasible exactly when the selected extra minutes are at most the threshold
(equality included); the feasible verdict carries the winning direction, the
rounded extra minutes and destination distance, and the fuel savings
`dest_dist_km * 0.3` rounded to two decimals; otherwise the over-threshold
verdict reports the shortfall. -/
theorem threshold_decision_boundary (env : Env) (a b : Convoy) (m r d : ℚ)
    (c : String × ℚ) (rest : List (String × ℚ))
    (hcap : spare_capacity a ≥ b.total_load_kg ∨ spare_capacity b ≥ a.total_load_kg)
    (hd : env.haversine_km a.destination_lat a.destination_lon
      b.destination_lat b.destination_lon = Except.ok d)
    (hnear : ¬ d > r)
    (hcand : mergeCandidates env.osrm a b = c :: rest) :
    suggest_merge env a b m r =
      (if (minByFirst c rest).2 ≤ m then
        feasibleVerdict (minByFirst c rest).1 (minByFirst c rest).2 d
          (spare_capacity a) (spare_capacity b)
      else thresholdVerdict (minByFirst c rest).1 (minByFirst c rest).2 m) ∧
    (List.lookup "can_merge" (suggest_merge env a b m r) = some (JValue.bool true) ↔
      (minByFirst c rest).2 ≤ m) ∧
    ((minByFirst c rest).2 ≤ m →
      List.lookup "scenario" (suggest_merge env a b m r) =
        some (JValue.str (minByFirst c rest).1) ∧
      List.lookup "extra_minutes" (suggest_merge env a b m r) =
        some (JValue.num (round2 (minByFirst c rest).2)) ∧
      List.lookup "dest_distance_km" (suggest_merge env a b m r) =
        some (JValue.num (round2 d)) ∧
      List.lookup "fuel_savings_liters" (suggest_merge env a b m r) =
        some (JValue.num (round2 (d * (3/10))))) ∧
    (¬ (minByFirst c rest).2 ≤ m →
      List.lookup "can_merge" (suggest_merge env a b m r) = some (JValue.bool false) ∧
      List.lookup "extra_minutes" (suggest_merge env a b m r) =
        some (JValue.num (round2 (minByFirst c rest).2))) := by
  have hmain := suggest_merge_selected env a b m r d c rest hcap hd hnear hcand
  refine ⟨hmain, ?_, ?_, ?_⟩
  · rw [hmain]
    by_cases hm : (minByFirst c rest).2 ≤ m
    · simp [if_pos hm, feasibleVerdict, List.lookup, hm]
    · simp [if_neg hm, thresholdVerdict, List.lookup, hm]
  · intro hm
    rw [hmain, if_pos hm]
    refine ⟨?_, ?_, ?_, ?_⟩ <;> simp [feasibleVerdict, List.lookup]
  · intro hm
    rw [hmain, if_neg hm]
    exact ⟨by simp [thresholdVerdict, List.lookup], by simp [thresholdVerdict, List.lookup]⟩

/-- Witness for C3: destinations 2 km apart, identical direct and pickup
durations, extra cost 0 min within the 30 min budget. -/
theorem threshold_decision_boundary_witness :
    mergeCandidates envNear.osrm convoyHost convoyGuest = [("A_picks_B", 0)] ∧
    suggest_merge envNear convoyHost convoyGuest 30 5 =
      (if (minByFirst ("A_picks_B", 0) []).2 ≤ (30 : ℚ) then
        feasibleVerdict (minByFirst ("A_picks_B", 0) []).1 (minByFirst ("A_picks_B", 0) []).2 2
          (spare_capacity convoyHost) (spare_capacity convoyGuest)
      else thresholdVerdict (minByFirst ("A_picks_B", 0) []).1
        (minByFirst ("A_picks_B", 0) []).2 30) ∧
    (List.lookup "can_merge" (suggest_merge envNear convoyHost convoyGuest 30 5) =
      some (JValue.bool true) ↔ (minByFirst ("A_picks_B", 0) []).2 ≤ (30 : ℚ)) := by
  have hcand : mergeCandidates envNear.osrm convoyHost convoyGuest = [("A_picks_B", 0)] := by
    norm_num [mergeCandidates, spare_capacity, total_capacity, convoyHost, convoyGuest,
      vcap, envNear, osrmConst, extraForHost, osrm_duration, directRoute, pickupRoute]
  have h := threshold_decision_boundary envNear convoyHost convoyGuest 30 5 2 ("A_picks_B", 0) []
    (Or.inl (by norm_num [spare_capacity, total_capacity, convoyHost, convoyGuest, vcap]))
    rfl (by norm_num) hcand
  exact ⟨hcand, h.1, h.2.1⟩

/-!
C4 — tie-break determinism.
-/

/-- C4: when both directions are capacity-feasible and both cost the same
extra minutes, the candidate list is `A_picks_B` then `B_picks_A`, the
stable minimum selects `A_picks_B`, and the verdict (feasible or not) names
`A_picks_B`. -/
theorem tie_break_determinism (env : Env) (a b : Convoy) (m r d e : ℚ)
    (hcapA : spare_capacity a ≥ b.total_load_kg)
    (hcapB : spare_capacity b ≥ a.total_load_kg)
    (heA : extraForHost env.osrm a b = some e)
    (heB : extraForHost env.osrm b a = some e)
    (hd : env.haversine_km a.destination_lat a.destination_lon
      b.destination_lat b.destination_lon = Except.ok d)
    (hnear : ¬ d > r) :
    mergeCandidates env.osrm a b = [("A_picks_B", e), ("B_picks_A", e)] ∧
    minByFirst ("A_picks_B", e) [("B_picks_A", e)] = ("A_picks_B", e) ∧
    suggest_merge env a b m r =
      (if e ≤ m then feasibleVerdict "A_picks_B" e d (spare_capacity a) (spare_capacity b)
       else thresholdVerdict "A_picks_B" e m) := by
  have hcand : mergeCandidates env.osrm a b = [("A_picks_B", e), ("B_picks_A", e)] := by
    unfold mergeCandidates
    rw [if_pos hcapA, if_pos hcapB, heA, heB]
    rfl
  have hmin : minByFirst ("A_picks_B", e) [("B_picks_A", e)] = ("A_picks_B", e) := by
    simp [minByFirst]
  have hmain := suggest_merge_selected env a b m r d ("A_picks_B", e) [("B_picks_A", e)]
    (Or.inl hcapA) hd hnear hcand
  rw [hmin] at hmain
  exact ⟨hcand, hmin, hmain⟩

/-- Witness for C4: both directions feasible, both extras 0, scenario
`A_picks_B` selected. -/
theorem tie_break_determinism_witness :
    spare_capacity convoyTwinA ≥ convoyTwinB.total_load_kg ∧
    spare_capacity convoyTwinB ≥ convoyTwinA.total_load_kg ∧
    extraForHost envNear.osrm convoyTwinA convoyTwinB = some 0 ∧
    extraForHost envNear.osrm convoyTwinB convoyTwinA = some 0 ∧
    suggest_merge envNear convoyTwinA convoyTwinB 30 5 =
      (if (0 : ℚ) ≤ 30 then
        feasibleVerdict "A_picks_B" 0 2 (spare_capacity convoyTwinA) (spare_capacity convoyTwinB)
       else thresholdVerdict "A_picks_B" 0 30) := by
  have h1 : spare_capacity convoyTwinA ≥ convoyTwinB.total_load_kg := by
    norm_num [spare_capacity, total_capacity, convoyTwinA, convoyTwinB, vcap]
  have h2 : spare_capacity convoyTwinB ≥ convoyTwinA.total_load_kg := by
    norm_num [spare_capacity, total_capacity, convoyTwinA, convoyTwinB, vcap]
  have h3 : extraForHost envNear.osrm convoyTwinA convoyTwinB = some 0 := by
    norm_num [extraForHost, osrm_duration, envNear, osrmConst, directRoute, pickupRoute]
  have h4 : extraForHost envNear.osrm convoyTwinB convoyTwinA = some 0 := by
    norm_num [extraForHost, osrm_duration, envNear, osrmConst, directRoute, pickupRoute]
  exact ⟨h1, h2, h3, h4,
    (tie_break_determinism envNear convoyTwinA convoyTwinB 30 5 2 0 h1 h2 h3 h4 rfl
      (by norm_num)).2.2⟩

/-!
C5 — oracle failure tolerance.
-/

/-- C5: `osrm_duration` answers `(none, none)` — never a fault — on a failed
round trip and on a response without a non-empty `routes` array; a direction
with a failed query is excluded (`extraForHost = none`, not zero cost); and
when both gates pass but every oracle query fails, the verdict is the
no-detour verdict, whose `can_merge` is false and whose reason cites the
inability to calculate detours. -/
theorem oracle_failure_tolerance :
    (∀ (osrm : List (ℚ × ℚ) → OsrmOutcome) (pts : List (ℚ × ℚ)),
       osrm pts = OsrmOutcome.failure → osrm_duration osrm pts = (none, none)) ∧
    (∀ (osrm : List (ℚ × ℚ) → OsrmOutcome) (pts : List (ℚ × ℚ)) (j : OsrmJson),
       osrm pts = OsrmOutcome.success j → j.routes = none ∨ j.routes = some [] →
       osrm_duration osrm pts = (none, none)) ∧
    (∀ (osrm : List (ℚ × ℚ) → OsrmOutcome) (ho gu : Convoy),
       (osrm_duration osrm (directRoute ho)).1 = none ∨
       (osrm_duration osrm (pickupRoute ho gu)).1 = none →
       extraForHost osrm ho gu = none) ∧
    (∀ (env : Env) (a b : Convoy) (m r d : ℚ),
       (spare_capacity a ≥ b.total_load_kg ∨ spare_capacity b ≥ a.total_load_kg) →
       env.haversine_km a.destination_lat a.destination_lon
         b.destination_lat b.destination_lon = Except.ok d →
       ¬ d > r →
       (∀ pts, env.osrm pts = OsrmOutcome.failure) →
       suggest_merge env a b m r = noDetourVerdict none none ∧
       List.lookup "can_merge" (noDetourVerdict none none) = some (JValue.bool false) ∧
       List.lookup "reason" (noDetourVerdict none none) =
         some (JValue.str "Could not calculate detour durations or no capacity")) := by
  have hzero : ∀ (osrm : List (ℚ × ℚ) → OsrmOutcome) (pts : List (ℚ × ℚ)),
      osrm pts = OsrmOutcome.failure → osrm_duration osrm pts = (none, none) := by
    intro osrm pts h
    unfold osrm_duration
    rw [h]
  have hexcl : ∀ (osrm : List (ℚ × ℚ) → OsrmOutcome) (ho gu : Convoy),
      (osrm_duration osrm (directRoute ho)).1 = none ∨
      (osrm_duration osrm (pickupRoute ho gu)).1 = none →
      extraForHost osrm ho gu = none := by
    intro osrm ho gu hor
    unfold extraForHost
    rcases hor with h1 | h2
    · rw [h1]
    · rw [h2]
      rcases (osrm_duration osrm (directRoute ho)).1 with _ | q <;> rfl
  refine ⟨hzero, ?_, hexcl, ?_⟩
  · intro osrm pts j hj hr
    unfold osrm_duration
    rw [hj]
    dsimp only
    rcases hr with h | h <;> rw [h]
  · intro env a b m r d hcap hd hnear hfail
    have hA : extraForHost env.osrm a b = none :=
      hexcl env.osrm a b (Or.inl (by rw [hzero env.osrm _ (hfail _)]))
    have hB : extraForHost env.osrm b a = none :=
      hexcl env.osrm b a (Or.inl (by rw [hzero env.osrm _ (hfail _)]))
    have hcand : mergeCandidates env.osrm a b = [] := by
      unfold mergeCandidates
      rw [hA, hB]
      simp
    refine ⟨?_, by simp [noDetourVerdict, List.lookup], by simp [noDetourVerdict, List.lookup]⟩
    unfold suggest_merge suggest_merge_body
    rw [if_neg (not_not_intro hcap), hd]
    dsimp only
    rw [if_neg hnear, hcand]
    dsimp only
    rw [hA, hB]

/-- Witness for C5: both gates pass but the routing service is down, so the
verdict is the no-detour verdict. -/
theorem oracle_failure_tolerance_witness :
    spare_capacity convoyHost ≥ convoyGuest.total_load_kg ∧
    suggest_merge envLeak2 convoyHost convoyGuest 30 5 = noDetourVerdict none none :=
  ⟨by norm_num [spare_capacity, total_capacity, convoyHost, convoyGuest, vcap],
   (oracle_failure_tolerance.2.2.2 envLeak2 convoyHost convoyGuest 30 5 2
     (Or.inl (by norm_num [spare_capacity, total_capacity, convoyHost, convoyGuest, vcap]))
     rfl (by norm_num) (fun _ => rfl)).1⟩

/-!
C7 — dependence of the verdict on oracle responses for capacity-infeasible
directions.
-/

lemma extraForHost_congr (o1 o2 : List (ℚ × ℚ) → OsrmOutcome) (ho gu : Convoy)
    (h1 : o1 (directRoute ho) = o2 (directRoute ho))
    (h2 : o1 (pickupRoute ho gu) = o2 (pickupRoute ho gu)) :
    extraForHost o1 ho gu = extraForHost o2 ho gu := by
  unfold extraForHost osrm_duration
  rw [h1, h2]

lemma suggest_merge_osrm_congr (env1 env2 : Env) (a b : Convoy) (m r : ℚ)
    (hhav : env1.haversine_km = env2.haversine_km)
    (hcand : mergeCandidates env1.osrm a b = mergeCandidates env2.osrm a b)
    (hne : mergeCandidates env1.osrm a b ≠ []) :
    suggest_merge env1 a b m r = suggest_merge env2 a b m r := by
  unfold suggest_merge suggest_merge_body
  rw [hhav, hcand]
  cases hc : mergeCandidates env2.osrm a b with
  | nil => exact absurd (hcand.trans hc) hne
  | cons c rest => dsimp only

/-- C7 counterexample: with the B_picks_A direction capacity-infeasible, two
environments agreeing on the distance helper and on both A_picks_B routes —
differing only in the infeasible direction's responses — produce different
verdicts (the no-candidate verdict leaks the raw `extra_B`). -/
theorem detour_costing_isolation_counterexample :
    ¬ spare_capacity convoyGuest ≥ convoyHost.total_load_kg ∧
    envLeak1.haversine_km = envLeak2.haversine_km ∧
    envLeak1.osrm (directRoute convoyHost) = envLeak2.osrm (directRoute convoyHost) ∧
    envLeak1.osrm (pickupRoute convoyHost convoyGuest) =
      envLeak2.osrm (pickupRoute convoyHost convoyGuest) ∧
    suggest_merge envLeak1 convoyHost convoyGuest 30 5 = noDetourVerdict none (some 0) ∧
    suggest_merge envLeak2 convoyHost convoyGuest 30 5 = noDetourVerdict none none ∧
    suggest_merge envLeak1 convoyHost convoyGuest 30 5 ≠
      suggest_merge envLeak2 convoyHost convoyGuest 30 5 := by
  refine ⟨?_, rfl, ?_, ?_, ?_, ?_, ?_⟩
  · norm_num [spare_capacity, total_capacity, convoyHost, convoyGuest, vcap]
  · norm_num [envLeak1, envLeak2, directRoute, pickupRoute, convoyHost, convoyGuest]
  · norm_num [envLeak1, envLeak2, directRoute, pickupRoute, convoyHost, convoyGuest]
  · norm_num [suggest_merge, suggest_merge_body, spare_capacity, total_capacity,
      convoyHost, convoyGuest, vcap, envLeak1, mergeCandidates, extraForHost,
      osrm_duration, directRoute, pickupRoute]
  · norm_num [suggest_merge, suggest_merge_body, spare_capacity, total_capacity,
      convoyHost, convoyGuest, vcap, envLeak2, mergeCandidates, extraForHost,
      osrm_duration, directRoute, pickupRoute]
  · norm_num [suggest_merge, suggest_merge_body, spare_capacity, total_capacity,
      convoyHost, convoyGuest, vcap, envLeak1, envLeak2, mergeCandidates, extraForHost,
      osrm_duration, directRoute, pickupRoute, noDetourVerdict, optNum]
    decide

/-- C7 (amended): the candidate list — hence the selected scenario and every
feasible or over-threshold verdict — ignores a capacity-infeasible
direction's oracle responses: two environments agreeing on the distance
helper and on the feasible direction's routes yield identical candidates,
and identical verdicts whenever the candidate list is non-empty.  (When it
is empty, the no-candidate verdict exposes the raw `extra_A`/`extra_B`
computed from the unconditionally issued queries, which is what the
counterexample exhibits.) -/
theorem detour_costing_isolation_amended :
    (∀ (env1 env2 : Env) (a b : Convoy) (m r : ℚ),
       env1.haversine_km = env2.haversine_km →
       ¬ spare_capacity b ≥ a.total_load_kg →
       env1.osrm (directRoute a) = env2.osrm (directRoute a) →
       env1.osrm (pickupRoute a b) = env2.osrm (pickupRoute a b) →
       mergeCandidates env1.osrm a b = mergeCandidates env2.osrm a b ∧
       (mergeCandidates env1.osrm a b ≠ [] →
         suggest_merge env1 a b m r = suggest_merge env2 a b m r)) ∧
    (∀ (env1 env2 : Env) (a b : Convoy) (m r : ℚ),
       env1.haversine_km = env2.haversine_km →
       ¬ spare_capacity a ≥ b.total_load_kg →
       env1.osrm (directRoute b) = env2.osrm (directRoute b) →
       env1.osrm (pickupRoute b a) = env2.osrm (pickupRoute b a) →
       mergeCandidates env1.osrm a b = mergeCandidates env2.osrm a b ∧
       (mergeCandidates env1.osrm a b ≠ [] →
         suggest_merge env1 a b m r = suggest_merge env2 a b m r)) := by
  constructor
  · intro env1 env2 a b m r hhav hb h1 h2
    have hcand : mergeCandidates env1.osrm a b = mergeCandidates env2.osrm a b := by
      unfold mergeCandidates
      rw [extraForHost_congr env1.osrm env2.osrm a b h1 h2, if_neg hb, if_neg hb]
    exact ⟨hcand, fun hne => suggest_merge_osrm_congr env1 env2 a b m r hhav hcand hne⟩
  · intro env1 env2 a b m r hhav ha h1 h2
    have hcand : mergeCandidates env1.osrm a b = mergeCandidates env2.osrm a b := by
      unfold mergeCandidates
      rw [extraForHost_congr env1.osrm env2.osrm b a h1 h2, if_neg ha, if_neg ha]
    exact ⟨hcand, fun hne => suggest_merge_osrm_congr env1 env2 a b m r hhav hcand hne⟩

/-- Witness for C7 at concrete data: replacing the infeasible direction's
responses by failures leaves the (non-empty-candidate) verdict unchanged. -/
theorem detour_costing_isolation_witness :
    envNear.haversine_km = envNearGuestFail.haversine_km ∧
    ¬ spare_capacity convoyGuest ≥ convoyHost.total_load_kg ∧
    envNear.osrm (directRoute convoyHost) = envNearGuestFail.osrm (directRoute convoyHost) ∧
    envNear.osrm (pickupRoute convoyHost convoyGuest) =
      envNearGuestFail.osrm (pickupRoute convoyHost convoyGuest) ∧
    mergeCandidates envNear.osrm convoyHost convoyGuest ≠ [] ∧
    suggest_merge envNear convoyHost convoyGuest 30 5 =
      suggest_merge envNearGuestFail convoyHost convoyGuest 30 5 := by
  have hb : ¬ spare_capacity convoyGuest ≥ convoyHost.total_load_kg := by
    norm_num [spare_capacity, total_capacity, convoyHost, convoyGuest, vcap]
  have h1 : envNear.osrm (directRoute convoyHost) =
      envNearGuestFail.osrm (directRoute convoyHost) := by
    norm_num [envNear, envNearGuestFail, directRoute, pickupRoute, convoyHost, convoyGuest]
  have h2 : envNear.osrm (pickupRoute convoyHost convoyGuest) =
      envNearGuestFail.osrm (pickupRoute convoyHost convoyGuest) := by
    norm_num [envNear, envNearGuestFail, directRoute, pickupRoute, convoyHost, convoyGuest]
  have hne : mergeCandidates envNear.osrm convoyHost convoyGuest ≠ [] := by
    norm_num [mergeCandidates, spare_capacity, total_capacity, convoyHost, convoyGuest,
      vcap, envNear, osrmConst, extraForHost, osrm_duration, directRoute, pickupRoute]
  exact ⟨rfl, hb, h1, h2, hne,
    (detour_costing_isolation_amended.1 envNear envNearGuestFail convoyHost convoyGuest
      30 5 rfl hb h1 h2).2 hne⟩

/-!
C8 — verdict shape.
-/

lemma suggest_merge_body_ok_shape (env : Env) (a b : Convoy) (m r : ℚ) (v : JObj)
    (h : suggest_merge_body env a b m r = Except.ok v) :
    v.map Prod.fst =
      ["can_merge", "reason", "convoy_a_spare_kg", "convoy_b_spare_kg",
       "convoy_a_load_kg", "convoy_b_load_kg"] ∨
    v.map Prod.fst = ["can_merge", "reason", "dest_distance_km"] ∨
    v.map Prod.fst = ["can_merge", "reason", "extra_A", "extra_B"] ∨
    v.map Prod.fst =
      ["can_merge", "reason", "scenario", "extra_minutes", "dest_distance_km",
       "fuel_savings_liters", "convoy_a_spare_kg", "convoy_b_spare_kg"] ∨
    v.map Prod.fst = ["can_merge", "reason", "extra_minutes"] := by
  unfold suggest_merge_body at h
  repeat' split at h
  all_goals first
    | exact Except.noConfusion h
    | (injection h with h
       subst h
       simp [capacityVerdict, distanceVerdict, noDetourVerdict, feasibleVerdict,
         thresholdVerdict])

/-- C8 counterexample: the capacity-gate verdict does not carry the claimed
field set — its spare-capacity keys are `convoy_a_spare_kg` and
`convoy_b_spare_kg` (not `spare_capacity_a_kg`/`spare_capacity_b_kg`), it
adds the two load fields, and it has no `scenario`, `extra_minutes`,
`dest_distance_km` or `fuel_savings_liters` keys at all. -/
theorem verdict_shape_counterexample :
    (suggest_merge envFail convoySmallSpare convoyHeavy 30 5).map Prod.fst =
      ["can_merge", "reason", "convoy_a_spare_kg", "convoy_b_spare_kg",
       "convoy_a_load_kg", "convoy_b_load_kg"] ∧
    "scenario" ∉ (suggest_merge envFail convoySmallSpare convoyHeavy 30 5).map Prod.fst ∧
    "spare_capacity_a_kg" ∉
      (suggest_merge envFail convoySmallSpare convoyHeavy 30 5).map Prod.fst ∧
    "dest_distance_km" ∉
      (suggest_merge envFail convoySmallSpare convoyHeavy 30 5).map Prod.fst := by
  rw [envFail_small_heavy_eval]
  exact ⟨rfl, by decide, by decide, by decide⟩

/-- C8 (amended): every verdict is one of six fixed key lists, one per
branch of the engine — capacity gate, distance gate, no calculable detour,
feasible, over threshold, internal fault — each starting with `can_merge`
and `reason`; numeric payloads are rounded to two decimals except the raw
`extra_A`/`extra_B` diagnostics of the no-detour verdict. -/
theorem verdict_shape_amended (env : Env) (a b : Convoy) (m r : ℚ) :
    (suggest_merge env a b m r).map Prod.fst =
      ["can_merge", "reason", "convoy_a_spare_kg", "convoy_b_spare_kg",
       "convoy_a_load_kg", "convoy_b_load_kg"] ∨
    (suggest_merge env a b m r).map Prod.fst = ["can_merge", "reason", "dest_distance_km"] ∨
    (suggest_merge env a b m r).map Prod.fst = ["can_merge", "reason", "extra_A", "extra_B"] ∨
    (suggest_merge env a b m r).map Prod.fst =
      ["can_merge", "reason", "scenario", "extra_minutes", "dest_distance_km",
       "fuel_savings_liters", "convoy_a_spare_kg", "convoy_b_spare_kg"] ∨
    (suggest_merge env a b m r).map Prod.fst = ["can_merge", "reason", "extra_minutes"] ∨
    (suggest_merge env a b m r).map Prod.fst = ["can_merge", "reason"] := by
  unfold suggest_merge
  cases hbody : suggest_merge_body env a b m r with
  | error msg =>
    dsimp only
    simp [errorVerdict]
  | ok v =>
    dsimp only
    rcases suggest_merge_body_ok_shape env a b m r v hbody with h | h | h | h | h <;>
      simp [h]

/-!
C6 — the boundary handler.
-/

/-- C6: `suggest_merge` is total — for every environment and input it
returns a structured verdict; when the body faults, the verdict is the
error verdict with `can_merge = false` and a reason carrying the fault's
message. -/
theorem boundary_catch_all (env : Env) (a b : Convoy) (m r : ℚ) :
    (∃ v, suggest_merge_body env a b m r = Except.ok v ∧ suggest_merge env a b m r = v) ∨
    (∃ msg, suggest_merge_body env a b m r = Except.error msg ∧
       suggest_merge env a b m r = errorVerdict msg ∧
       List.lookup "can_merge" (errorVerdict msg) = some (JValue.bool false) ∧
       List.lookup "reason" (errorVerdict msg) = some (JValue.str ("Error: " ++ msg))) := by
  cases h : suggest_merge_body env a b m r with
  | ok v => exact Or.inl ⟨v, rfl, by unfold suggest_merge; rw [h]⟩
  | error msg =>
    refine Or.inr ⟨msg, rfl, by unfold suggest_merge; rw [h], ?_, ?_⟩
    · simp [errorVerdict, List.lookup]
    · simp [errorVerdict, List.lookup]
